/-
Verification of the Column Profiling & Schema Inference Engine.

Shallow embedding of the repository's core modules:
  * `ai_pipeline/core/ai_data_classifier.py`   (AIDataClassifier)
  * `ai_pipeline/core/ai_enhanced_classifier.py` (AIEnhancedClassifier)
  * `ai_pipeline/core/data_vault_generator.py` (DataVaultGenerator)

Embedding conventions:
  * A pandas DataFrame is a list of named columns; a cell is `Option String`
    (`none` = null/NaN, `some v` = the cell's value rendered as text, matching
    the source's immediate `.astype(str)` coercion).
  * `series.sample(min(len(series), sample_size), random_state=0)` returns a
    permutation of the whole series whenever the series has at most
    `sample_size` rows.  Every profile field derived from the sample except
    `sample_values` is permutation-invariant (`nunique`, `all`, `any`, set
    intersection), so the sample is embedded as the null-dropped series itself.
  * Python floats are embedded as rationals (`ℚ`); the thresholds 0.9, 0.8,
    0.7, 0.5, 0.3, 0.1 are exact decimal literals in the source.
  * `re` patterns are embedded as executable boolean character-list matchers
    restricted to ASCII, which is the fragment the source's data exercises
    (`\w` = `[A-Za-z0-9_]`).
  * `df[col]` on a missing column raises a `KeyError` lookup failure (the
    spec's `NotFoundError`); fallible operations return `Except`.
-/
import Mathlib

namespace AIPipeline

/-! ## Data model (`ai_data_classifier.py`, lines 9-32) -/

/-- `class DataType(Enum)` — the six semantic categories. -/
inductive DataType where
  | IDENTIFIER
  | BUSINESS_KEY
  | DATE
  | NUMERIC
  | TEXT
  | BOOLEAN
deriving DecidableEq, Repr

/-- `class PIILevel(Enum)` — ordered sensitivity classification. -/
inductive PIILevel where
  | NONE
  | LOW
  | MEDIUM
  | HIGH
deriving DecidableEq, Repr

/-- `@dataclass ColumnProfile` — one profile per source column. -/
structure ColumnProfile where
  suggested_name : String
  data_type : DataType
  is_primary_key : Bool := false
  is_business_key : Bool := false
  references : List String := []
  pii_level : PIILevel := PIILevel.NONE
  unique_ratio : ℚ := 0
  sample_values : List String := []
deriving DecidableEq, Repr

/-- A pandas DataFrame: named columns of equal length; a cell is `none`
when null.  Cell values are kept in their `astype(str)` text form. -/
structure DataFrame where
  cols : List (String × List (Option String))
deriving DecidableEq, Repr

/-- `df[c]` as a lookup: the first column named `c`, if any. -/
def DataFrame.getCol (df : DataFrame) (c : String) : Option (List (Option String)) :=
  (df.cols.find? (fun p => p.1 = c)).map (fun p => p.2)

/-- Column names of the frame, in order (`df.columns`). -/
def DataFrame.names (df : DataFrame) : List String :=
  df.cols.map (fun p => p.1)

/-- `series.dropna()` — keep the non-null cells, in order. -/
def dropna (vals : List (Option String)) : List String :=
  vals.filterMap id

/-- `series.nunique()` — number of distinct values. -/
def nunique (vals : List String) : Nat :=
  vals.dedup.length

/-- Python `str.lower()` on the ASCII fragment (`Char.toLower` only
touches `A`-`Z`), written as a plain map over the character list. -/
def pyLower (s : String) : String :=
  String.mk (s.data.map Char.toLower)

/-- Python `str.upper()` on the ASCII fragment (`Char.toUpper` only
touches `a`-`z`), written as a plain map over the character list. -/
def pyUpper (s : String) : String :=
  String.mk (s.data.map Char.toUpper)

/-! ## Regex pattern embeddings -/

/-- `\w` in the ASCII fragment: letters, digits, underscore. -/
def isWordChar (c : Char) : Bool :=
  c.isAlphanum || c = '_'

/-- Character class `[\w.+-]` (email local part). -/
def isLocalChar (c : Char) : Bool :=
  isWordChar c || c = '.' || c = '+' || c = '-'

/-- Character class `[\w-]` (email domain label). -/
def isDomChar (c : Char) : Bool :=
  isWordChar c || c = '-'

/-- Character class `[\w.-]` (email domain tail). -/
def isDomTailChar (c : Char) : Bool :=
  isWordChar c || c = '.' || c = '-'

/-- `re.match(r"^[\w.+-]+@[\w-]+\.[\w.-]+$", s)`: a nonempty `[\w.+-]+`
local part, `@`, a nonempty `[\w-]+` label, a dot, a nonempty `[\w.-]+`
tail.  Since `@` is in none of the classes the consumed `@` is the first
one, and since `.` is not in `[\w-]` the separating dot is the first dot
after the `@`. -/
def emailMatch (s : String) : Bool :=
  let cs := s.data
  let l := cs.takeWhile (fun c => c ≠ '@')
  match cs.dropWhile (fun c => c ≠ '@') with
  | [] => false
  | _ :: r =>
    let d1 := r.takeWhile (fun c => c ≠ '.')
    match r.dropWhile (fun c => c ≠ '.') with
    | [] => false
    | _ :: d2 =>
      !l.isEmpty && l.all isLocalChar &&
      !d1.isEmpty && d1.all isDomChar &&
      !d2.isEmpty && d2.all isDomTailChar

/-- Consume exactly `n` digits, returning the rest of the characters. -/
def takeDigits : Nat → List Char → Option (List Char)
  | 0, cs => some cs
  | n + 1, c :: cs => if c.isDigit then takeDigits n cs else none
  | _ + 1, [] => none

/-- `re.match(r"^\d{3}-\d{2}-\d{4}$", s)` — the SSN pattern. -/
def ssnMatch (s : String) : Bool :=
  match takeDigits 3 s.data with
  | some ('-' :: r1) =>
    match takeDigits 2 r1 with
    | some ('-' :: r2) =>
      match takeDigits 4 r2 with
      | some [] => true
      | _ => false
    | _ => false
  | _ => false

/-- `[-\s]` — a dash or whitespace (ASCII core of `\s`). -/
def isSepChar (c : Char) : Bool :=
  c = '-' || c.isWhitespace

/-- Drop one leading `[-\s]` separator if present.  The following token is
always a digit, so consuming a present separator is forced. -/
def dropSep : List Char → List Char
  | c :: cs => if isSepChar c then cs else c :: cs
  | [] => []

/-- `re.match(r"^\d{4}[-\s]?\d{4}[-\s]?\d{4}[-\s]?\d{4}$", s)` — the
credit-card pattern. -/
def cardMatch (s : String) : Bool :=
  match takeDigits 4 s.data with
  | some r1 =>
    match takeDigits 4 (dropSep r1) with
    | some r2 =>
      match takeDigits 4 (dropSep r2) with
      | some r3 =>
        match takeDigits 4 (dropSep r3) with
        | some [] => true
        | _ => false
      | _ => false
    | _ => false
  | _ => false

/-- `cs` is a run of 9 to 15 digits and nothing else. -/
def isDigits9to15 (cs : List Char) : Bool :=
  cs.all Char.isDigit && 9 ≤ cs.length && cs.length ≤ 15

/-- `re.match(r"^\+?1?\d{9,15}$", s)` — the phone pattern: optional `+`,
then either 9-15 digits, or a literal `1` followed by 9-15 digits. -/
def phoneMatch (s : String) : Bool :=
  let cs := match s.data with
    | '+' :: r => r
    | r => r
  isDigits9to15 cs ||
    (match cs with
     | '1' :: r => isDigits9to15 r
     | _ => false)

/-- `re.match(r"^[A-Z][a-z]+ [A-Z][a-z]+$", s)` — the full-name pattern.
`[a-z]+` cannot cross the space, so the match decomposes at the first
non-lowercase character after each capital. -/
def fullNameMatch (s : String) : Bool :=
  match s.data with
  | c :: rest =>
    c.isUpper &&
    (let w := rest.takeWhile Char.isLower
     !w.isEmpty &&
     (match rest.dropWhile Char.isLower with
      | ' ' :: c2 :: rest2 =>
        c2.isUpper && !rest2.isEmpty && rest2.all Char.isLower
      | _ => false))
  | [] => false

/-- Does `cs` begin with a space followed by one of the street suffixes
`St|Ave|Rd|Dr|Blvd`? -/
def beginsStreetSuffix (cs : List Char) : Bool :=
  [" St", " Ave", " Rd", " Dr", " Blvd"].any (fun p => p.data.isPrefixOf cs)

/-- Match `.+ (St|Ave|Rd|Dr|Blvd)` as a prefix of `cs`: at least one
non-newline character, then a space and a street suffix; `.` never
matches a newline. -/
def addrTail : List Char → Bool
  | [] => false
  | c :: cs => c ≠ '\n' && (beginsStreetSuffix cs || addrTail cs)

/-- `re.match(r"^\d{1,5} .+ (St|Ave|Rd|Dr|Blvd)", s)` — the street-address
pattern; unanchored at the right, so it matches any prefix of `s`. -/
def addressMatch (s : String) : Bool :=
  (List.range 5).any (fun k =>
    let n := k + 1
    let ds := s.data.take n
    ds.length = n && ds.all Char.isDigit &&
    (match s.data.drop n with
     | ' ' :: rest => addrTail rest
     | _ => false))

/-- Substring containment of `p` in `cs` (Python's `p in s`). -/
def containsSub (p : List Char) : List Char → Bool
  | [] => p.isEmpty
  | c :: cs => p.isPrefixOf (c :: cs) || containsSub p cs

/-- `keyword in col.lower()` for a string keyword. -/
def strContains (hay needle : String) : Bool :=
  containsSub needle.data hay.data

/-- `re.search(r"id$", col, re.IGNORECASE)` — the lowered name ends in `id`. -/
def endsWithCI (col suffix : String) : Bool :=
  suffix.data.isSuffixOf (pyLower col).data

/-- `re.search(r"date|day|year", col, re.IGNORECASE)` — the lowered name
contains one of the alternatives. -/
def dateNameMatch (col : String) : Bool :=
  strContains (pyLower col) "date" || strContains (pyLower col) "day" ||
    strContains (pyLower col) "year"

/-- `re.match(r"^-?\d+(\.\d+)?$", s)` — optional minus sign, digits,
optional fractional part. -/
def numericMatch (s : String) : Bool :=
  let cs := match s.data with
    | '-' :: r => r
    | r => r
  let ip := cs.takeWhile Char.isDigit
  !ip.isEmpty &&
    (match cs.dropWhile Char.isDigit with
     | [] => true
     | '.' :: fr => !fr.isEmpty && fr.all Char.isDigit
     | _ => false)

/-- `re.match(r"^[A-Z]{2,4}$|^[A-Z][0-9]{1,3}$", s)` — short code pattern
used by business-key detection. -/
def shortCodeMatch (s : String) : Bool :=
  (s.data.all Char.isUpper && 2 ≤ s.length && s.length ≤ 4) ||
    (match s.data with
     | c :: rest =>
       c.isUpper && rest.all Char.isDigit && 1 ≤ rest.length && rest.length ≤ 3
     | [] => false)

/-! ## `AIDataClassifier._detect_pii` (lines 145-175) -/

/-- The LOW-level column-name keywords (`low_pii_names`). -/
def lowPiiNames : List String :=
  ["name", "first", "last", "address", "city", "zip"]

/-- `AIDataClassifier._detect_pii(sample, col)`: HIGH patterns first
(email, SSN, card, phone), then MEDIUM (full name, address), then the
LOW column-name keywords, else NONE. -/
def detectPii (sample : List String) (col : String) : PIILevel :=
  if sample.any emailMatch then PIILevel.HIGH
  else if sample.any ssnMatch then PIILevel.HIGH
  else if sample.any cardMatch then PIILevel.HIGH
  else if sample.any phoneMatch then PIILevel.HIGH
  else if sample.any fullNameMatch then PIILevel.MEDIUM
  else if sample.any addressMatch then PIILevel.MEDIUM
  else if lowPiiNames.any (fun k => strContains (pyLower col) k) then PIILevel.LOW
  else PIILevel.NONE

/-! ## `AIDataClassifier._detect_business_key` (lines 118-143) -/

/-- The `business_patterns` name test: `.*code$` … `.*region$` are
ends-with tests, `.*dept` a contains test (no `$`), all case-insensitive. -/
def businessNameMatch (col : String) : Bool :=
  endsWithCI col "code" || endsWithCI col "type" || endsWithCI col "status" ||
    endsWithCI col "category" || endsWithCI col "class" || endsWithCI col "group" ||
    strContains (pyLower col) "dept" || endsWithCI col "region"

/-- `AIDataClassifier._detect_business_key(col, sample, unique_ratio,
data_type)`: name patterns, short-code density, enum-likeness, then the
low-cardinality TEXT fallback.

The source receives `unique_ratio = nunique/len` (`0` on an empty
sample); each threshold comparison is embedded as the exact
cross-multiplied integer comparison on the same sample, with the empty
sample listed explicitly where `0 < threshold` would hold.  `mean > 0.5`
over the short-code indicator is `2 * matches > size`. -/
def detectBusinessKey (col : String) (sample : List String)
    (data_type : DataType) : Bool :=
  if businessNameMatch col then true
  else if data_type = DataType.TEXT &&
      (sample.isEmpty || 10 * nunique sample < 3 * sample.length) &&
      sample.length > 10 &&
      2 * (sample.filter shortCodeMatch).length > sample.length then true
  else if data_type = DataType.TEXT &&
      (sample.isEmpty || 10 * nunique sample < sample.length) &&
      nunique sample < 20 then
    true
  else
    data_type = DataType.TEXT &&
      (sample.isEmpty || 2 * nunique sample < sample.length)

/-! ## `AIDataClassifier._detect_foreign_keys` (lines 86-116) -/

/-- Heuristic 1 (name similarity): `re.search(rf"{other_col}$", col,
re.IGNORECASE)` — the other name, read literally, suffixes this name. -/
def fkNameHeuristic (col other : String) : Bool :=
  endsWithCI col (pyLower other)

/-- `len(set(sample) & set(other_sample))` — distinct values common to
the two samples. -/
def overlapCount (sample otherSample : List String) : Nat :=
  (sample.dedup.filter (fun v => otherSample.contains v)).length

/-- Heuristic 2 (value overlap): both samples nonempty and
`overlap_ratio > 0.7`, where the ratio divides the overlap by this
column's distinct sample count — embedded as the exact cross-multiplied
comparison (the guard makes the divisor positive). -/
def fkOverlapHeuristic (sample otherSample : List String) : Bool :=
  otherSample.length > 0 && sample.length > 0 &&
    10 * overlapCount sample otherSample > 7 * nunique sample

/-- `df[[col, other_col]].drop_duplicates()` — distinct aligned value
pairs over all rows of the frame, nulls included (pandas deduplicates
NaN like any value). -/
def dedupPairs (colVals otherVals : List (Option String)) : Nat :=
  (colVals.zip otherVals).dedup.length

/-- Heuristic 3 (cardinality): the other column has non-null values,
`sample.nunique() >= other_sample.nunique() * 0.8` (embedded as the
exact cross-multiplied comparison), and the number of distinct row
pairs over the whole frame equals this column's sampled distinct
count. -/
def fkCardinalityHeuristic (sample otherSample : List String)
    (colVals otherVals : List (Option String)) : Bool :=
  otherSample.length > 0 &&
    10 * nunique sample ≥ 8 * nunique otherSample &&
    dedupPairs colVals otherVals = nunique sample

/-- `AIDataClassifier._detect_foreign_keys(df, col, sample)`: walk the
other columns in frame order; a column is appended when the first firing
heuristic among name-suffix, value-overlap, cardinality accepts it. -/
def detectForeignKeys (df : DataFrame) (col : String) (sample : List String) :
    List String :=
  (df.cols.filter (fun other =>
    other.1 ≠ col &&
      (fkNameHeuristic col other.1 ||
       fkOverlapHeuristic sample (dropna other.2) ||
       fkCardinalityHeuristic sample (dropna other.2)
         ((df.getCol col).getD []) other.2))).map (fun other => other.1)

/-! ## `AIDataClassifier.analyze_column` (lines 38-84) -/

/-- The cardinality condition as the specification words it (for
comparison with `fkCardinalityHeuristic`, which is translated from the
source): this column's sampled distinct count is at least 80% of the
other column's distinct count, and the number of distinct
`(this, other)` pairs *over the sampled rows* — the rows whose value of
this column entered the sample, i.e. the non-null ones — equals this
column's sampled distinct count.  No guard on the other column being
nonempty appears in the specification's wording. -/
def specCardinalityCond (sample otherSample : List String)
    (colVals otherVals : List (Option String)) : Bool :=
  10 * nunique sample ≥ 8 * nunique otherSample &&
    ((colVals.zip otherVals).filterMap
      (fun pr => pr.1.map (fun v => (v, pr.2)))).dedup.length = nunique sample

/-- The spec's `NotFoundError` (Python `KeyError` from `df[col]`). -/
inductive PipelineError where
  | NotFoundError
deriving DecidableEq, Repr

deriving instance DecidableEq for Except

/-- `re.sub(r"[^0-9a-zA-Z]+", "_", col).lower()` — collapse every
maximal run of non-alphanumerics to one underscore, then lowercase. -/
def snAux : Bool → List Char → List Char
  | _, [] => []
  | inRun, c :: cs =>
    if c.isAlphanum then c :: snAux false cs
    else if inRun then snAux true cs
    else '_' :: snAux true cs

/-- `re.sub(r"[^0-9a-zA-Z]+", "_", col).lower()` — collapse every
maximal run of non-alphanumerics to one underscore (`snAux`, whose flag
records being inside such a run), then lowercase. -/
def suggestedNameOf (col : String) : String :=
  pyLower (String.mk (snAux false col.data))

/-- `AIDataClassifier.analyze_column(df, col)`.  The sample is the
null-dropped series (see the header note on `pandas.Series.sample`);
`unique_ratio > 0.9` is embedded as the exact cross-multiplied integer
comparison (both sides are `0` on an empty sample, as in the source
where the ratio is then `0`). -/
def analyzeColumn (df : DataFrame) (col : String) :
    Except PipelineError ColumnProfile :=
  match df.getCol col with
  | none => Except.error PipelineError.NotFoundError
  | some vals =>
    let sample := dropna vals
    let unique_ratio : ℚ :=
      if sample.length = 0 then 0 else (nunique sample : ℚ) / (sample.length : ℚ)
    let idName := endsWithCI col "id"
    let typed : DataType × Bool :=
      if 10 * nunique sample > 9 * sample.length && idName then
        (DataType.IDENTIFIER, true)
      else if dateNameMatch col then (DataType.DATE, false)
      else if sample.all numericMatch then (DataType.NUMERIC, false)
      else if sample.all (fun v => ["true", "false", "0", "1"].contains (pyLower v))
        then (DataType.BOOLEAN, false)
      else (DataType.TEXT, false)
    Except.ok
      { suggested_name := suggestedNameOf col
        data_type := typed.1
        is_primary_key := typed.2
        is_business_key := detectBusinessKey col sample typed.1
        references := detectForeignKeys df col sample
        pii_level := detectPii sample col
        unique_ratio := unique_ratio
        sample_values := sample.take 5 }

/-! ## `AIEnhancedClassifier` (`ai_enhanced_classifier.py`) -/

/-- `DataType.value` — the enum's string payload. -/
def DataType.value : DataType → String
  | DataType.IDENTIFIER => "identifier"
  | DataType.BUSINESS_KEY => "business_key"
  | DataType.DATE => "date"
  | DataType.NUMERIC => "numeric"
  | DataType.TEXT => "text"
  | DataType.BOOLEAN => "boolean"

/-- `@dataclass AIInsight`. -/
structure AIInsight where
  confidence_score : ℚ
  business_meaning : String
  data_quality_notes : String
  suggested_improvements : String
  ai_classification : DataType
  reasoning : String
deriving DecidableEq, Repr

/-- The JSON payload a successful advisory response parses into
(defaults from `payload.get` already applied). -/
structure GeminiPayload where
  confidence_score : ℚ := 1/2
  business_meaning : String := ""
  data_quality_notes : String := ""
  suggested_improvements : String := ""
  suggested_classification : String := "text"
  reasoning : String := ""
deriving DecidableEq, Repr

/-- `cls_map.get(tag, DataType.TEXT)` — string tag to semantic type. -/
def clsMap (tag : String) : DataType :=
  if tag = "identifier" then DataType.IDENTIFIER
  else if tag = "business_key" then DataType.BUSINESS_KEY
  else if tag = "date" then DataType.DATE
  else if tag = "numeric" then DataType.NUMERIC
  else if tag = "text" then DataType.TEXT
  else if tag = "boolean" then DataType.BOOLEAN
  else DataType.TEXT

/-- `AIEnhancedClassifier._fallback_insight(profile, msg)`. -/
def fallbackInsight (profile : ColumnProfile) (msg : String) : AIInsight :=
  { confidence_score := 6/10
    business_meaning := "Pattern: " ++ profile.data_type.value
    data_quality_notes := msg
    suggested_improvements := ""
    ai_classification := profile.data_type
    reasoning := "Pattern-only" }

/-- `AIEnhancedClassifier._gemini_insight(df, col, pattern_profile)`.
The network call, response-text extraction and JSON parsing are external
I/O; their combined outcome is the `Except` input: `Except.ok payload`
is a successfully parsed response, `Except.error exc` any raised
exception (timeout, transport failure, malformed body) — the source
catches every exception and falls back. -/
def geminiInsight (outcome : Except String GeminiPayload)
    (pattern : ColumnProfile) : AIInsight :=
  match outcome with
  | Except.ok payload =>
    { confidence_score := payload.confidence_score
      business_meaning := payload.business_meaning
      data_quality_notes := payload.data_quality_notes
      suggested_improvements := payload.suggested_improvements
      ai_classification := clsMap payload.suggested_classification
      reasoning := payload.reasoning }
  | Except.error exc => fallbackInsight pattern exc

/-- `AIEnhancedClassifier._merge(pattern, insight)` — override the
semantic type only above confidence 0.8 and only on disagreement. -/
def merge (pattern : ColumnProfile) (insight : AIInsight) : ColumnProfile :=
  if insight.confidence_score > 8/10 && insight.ai_classification != pattern.data_type
  then { pattern with data_type := insight.ai_classification }
  else pattern

/-- `AIEnhancedClassifier.analyze_column_with_ai(df, col)`: the pattern
pass, then the optional advisory pass. -/
def analyzeColumnWithAi (aiEnabled : Bool) (outcome : Except String GeminiPayload)
    (df : DataFrame) (col : String) :
    Except PipelineError (ColumnProfile × AIInsight) :=
  match analyzeColumn df col with
  | Except.error e => Except.error e
  | Except.ok pattern =>
    if !aiEnabled then Except.ok (pattern, fallbackInsight pattern "AI disabled")
    else
      let insight := geminiInsight outcome pattern
      Except.ok (merge pattern insight, insight)

/-! ## `DataVaultGenerator` (`data_vault_generator.py`)

Only the fields the generation algorithm writes are embedded; the
dataclasses' fixed metadata defaults (`hash_key`, `load_date_column`,
timestamps, statistics) are not read by `generate_model`. -/

/-- `@dataclass Hub` — `name` and the seeding `business_keys`. -/
structure Hub where
  name : String
  business_keys : List String
deriving DecidableEq, Repr

/-- `@dataclass Link` — `name` and the sorted `hub_references`. -/
structure Link where
  name : String
  hub_references : List String
deriving DecidableEq, Repr

/-- `@dataclass Satellite` — `name`, `parent_table` and payload columns. -/
structure Satellite where
  name : String
  parent_table : String
  columns : List String
deriving DecidableEq, Repr

/-- `@dataclass DataVaultModel` — the generated schema. -/
structure DataVaultModel where
  hubs : List Hub
  links : List Link
  satellites : List Satellite
  model_name : String
  total_columns_analyzed : Nat
deriving DecidableEq, Repr

/-- Lexicographic `≤` on code points over character lists — the order
Python compares strings with. -/
def listLeChars : List Char → List Char → Bool
  | [], _ => true
  | _ :: _, [] => false
  | a :: as, b :: bs =>
    if a.toNat < b.toNat then true
    else if b.toNat < a.toNat then false
    else listLeChars as bs

/-- Python's string `<=`. -/
def pyLe (a b : String) : Bool :=
  listLeChars a.data b.data

/-- Insert a string into an ascending list, keeping order. -/
def insertSorted (a : String) : List String → List String
  | [] => [a]
  | b :: bs => if pyLe a b then a :: b :: bs else b :: insertSorted a bs

/-- Python's `sorted` on strings: ascending lexicographic order on code
points.  This order is antisymmetric, so every correct sort of a string
list returns the same list; insertion sort is used here for its
structural recursion. -/
def pySorted (l : List String) : List String :=
  l.foldr insertSorted []

/-- Python's `sep.join(parts)`. -/
def pyJoin (sep : String) : List String → String
  | [] => ""
  | [a] => a
  | a :: b :: rest => a ++ sep ++ pyJoin sep (b :: rest)

/-- Hub qualification test of Step 2: primary key, business key, or an
IDENTIFIER / BUSINESS_KEY semantic type. -/
def hubQualifies (p : ColumnProfile) : Bool :=
  p.is_primary_key || p.is_business_key ||
    p.data_type = DataType.IDENTIFIER || p.data_type = DataType.BUSINESS_KEY

/-- One iteration of the Step 2 Hub loop: create the upper-cased Hub
unless one with that name already exists. -/
def hubStep (hubs : List Hub) (p : ColumnProfile) : List Hub :=
  if hubQualifies p then
    let hubName := pyUpper p.suggested_name
    if hubs.any (fun h => h.name = hubName) then hubs
    else hubs ++ [{ name := hubName, business_keys := [p.suggested_name] }]
  else hubs

/-- `sorted([profile.suggested_name.upper()] + [ref.upper() for ref in
profile.references])`. -/
def linkedHubNames (p : ColumnProfile) : List String :=
  pySorted (pyUpper p.suggested_name :: p.references.map pyUpper)

/-- One iteration of the Step 3 Link loop: profiles with a nonempty
`references` list seed a Link named by joining the sorted hub names
with `"_"`. -/
def linkStep (links : List Link) (p : ColumnProfile) : List Link :=
  if !p.references.isEmpty then
    let linked := linkedHubNames p
    let nm := pyJoin "_" linked
    if links.any (fun l => l.name = nm) then links
    else links ++ [{ name := nm, hub_references := linked }]
  else links

/-- One iteration of the Step 4 Satellite loop: a descriptive profile
(no key flags, no references) attaches to the first Hub, if any. -/
def satStep (hubs : List Hub) (sats : List Satellite) (p : ColumnProfile) :
    List Satellite :=
  if !(p.is_primary_key || p.is_business_key || !p.references.isEmpty) then
    match hubs with
    | parent :: _ =>
      let nm := parent.name ++ "_" ++ pyUpper p.suggested_name ++ "_SAT"
      if sats.any (fun s => s.name = nm) then sats
      else sats ++ [{ name := nm, parent_table := parent.name
                      columns := [p.suggested_name] }]
    | [] => sats
  else sats

/-- `DataVaultGenerator.generate_model(column_profiles, model_name)`
(lines 426-507): Step 2 builds the Hubs, Step 3 the Links, Step 4 the
Satellites — three separate passes in input order. -/
def generateModel (profiles : List ColumnProfile)
    (modelName : String := "AutoGenerated") : DataVaultModel :=
  let hubs := profiles.foldl hubStep []
  { hubs := hubs
    links := profiles.foldl linkStep []
    satellites := profiles.foldl (satStep hubs) []
    model_name := modelName
    total_columns_analyzed := profiles.length }

/-! ## Helper lemmas -/

theorem char_toNat_ofNat {m : Nat} (h : m < 55296) : (Char.ofNat m).toNat = m := by
  rw [Char.ofNat, dif_pos (Or.inl h)]
  rfl

theorem char_eq_of_toNat_eq {c d : Char} (h : c.toNat = d.toNat) : c = d := by
  have hc := Char.ofNat_toNat c
  have hd := Char.ofNat_toNat d
  rw [← hc, ← hd, h]

theorem char_toUpper_fix (d : Char) (h : ¬(d.toNat ≥ 97 ∧ d.toNat ≤ 122)) :
    d.toUpper = d := by
  unfold Char.toUpper
  rw [if_neg h]

theorem char_toUpper_idem (c : Char) : c.toUpper.toUpper = c.toUpper := by
  by_cases h : c.toNat ≥ 97 ∧ c.toNat ≤ 122
  · have h1 : c.toUpper = Char.ofNat (c.toNat - 32) := by
      unfold Char.toUpper
      rw [if_pos h]
    have h2 : c.toUpper.toNat = c.toNat - 32 := by
      rw [h1, char_toNat_ofNat (by omega)]
    exact char_toUpper_fix _ (by omega)
  · have h1 : c.toUpper = c := char_toUpper_fix c h
    rw [h1]
    exact h1

theorem pyUpper_idem (s : String) : pyUpper (pyUpper s) = pyUpper s := by
  unfold pyUpper
  show String.mk ((s.data.map Char.toUpper).map Char.toUpper) = _
  rw [List.map_map]
  congr 1
  exact List.map_congr_left (fun c _ => char_toUpper_idem c)

theorem pyUpper_append (a b : String) : pyUpper (a ++ b) = pyUpper a ++ pyUpper b := by
  cases a with
  | mk da =>
    cases b with
    | mk db =>
      show String.mk ((da ++ db).map Char.toUpper) = _
      rw [List.map_append]
      rfl

theorem pyJoin_fixed : ∀ (l : List String), (∀ x ∈ l, pyUpper x = x) →
    pyUpper (pyJoin "_" l) = pyJoin "_" l
  | [], _ => rfl
  | [a], h => h a (List.mem_singleton.mpr rfl)
  | a :: b :: rest, h => by
    show pyUpper (a ++ "_" ++ pyJoin "_" (b :: rest)) = a ++ "_" ++ pyJoin "_" (b :: rest)
    rw [pyUpper_append, pyUpper_append]
    rw [h a (List.mem_cons_self a _)]
    rw [show pyUpper "_" = "_" from rfl]
    rw [pyJoin_fixed (b :: rest) (fun x hx => h x (List.mem_cons_of_mem a hx))]

theorem mem_insertSorted {x a : String} : ∀ {l : List String},
    x ∈ insertSorted a l → x = a ∨ x ∈ l := by
  intro l
  induction l with
  | nil =>
    intro h
    exact Or.inl (List.mem_singleton.mp h)
  | cons b bs ih =>
    intro h
    by_cases hc : pyLe a b = true
    · rw [insertSorted, if_pos hc] at h
      exact List.mem_cons.mp h
    · rw [insertSorted, if_neg hc] at h
      rcases List.mem_cons.mp h with h' | h'
      · exact Or.inr (List.mem_cons.mpr (Or.inl h'))
      · rcases ih h' with h'' | h''
        · exact Or.inl h''
        · exact Or.inr (List.mem_cons.mpr (Or.inr h''))

theorem mem_pySorted {x : String} : ∀ {l : List String}, x ∈ pySorted l → x ∈ l := by
  intro l
  induction l with
  | nil => intro h; exact h
  | cons a rest ih =>
    intro h
    rcases mem_insertSorted (l := pySorted rest) h with h | h
    · exact h ▸ List.mem_cons_self a rest
    · exact List.mem_cons_of_mem a (ih h)

theorem listLeChars_total : ∀ as bs : List Char,
    listLeChars as bs = true ∨ listLeChars bs as = true := by
  intro as
  induction as with
  | nil => intro bs; exact Or.inl rfl
  | cons a as' ih =>
    intro bs
    cases bs with
    | nil => exact Or.inr rfl
    | cons b bs' =>
      rcases Nat.lt_trichotomy a.toNat b.toNat with h | h | h
      · left; simp [listLeChars, h]
      · have h' : ¬ a.toNat < b.toNat := by omega
        have h'' : ¬ b.toNat < a.toNat := by omega
        simp only [listLeChars, if_neg h', if_neg h'', if_pos, h]
        simpa [h] using ih bs'
      · right; simp [listLeChars, h]

theorem listLeChars_antisymm : ∀ as bs : List Char,
    listLeChars as bs = true → listLeChars bs as = true → as = bs := by
  intro as
  induction as with
  | nil =>
    intro bs _ h2
    cases bs with
    | nil => rfl
    | cons b bs' => simp [listLeChars] at h2
  | cons a as' ih =>
    intro bs h1 h2
    cases bs with
    | nil => simp [listLeChars] at h1
    | cons b bs' =>
      by_cases hab : a.toNat < b.toNat
      · have : ¬ b.toNat < a.toNat := by omega
        simp [listLeChars, this, hab] at h2
      · by_cases hba : b.toNat < a.toNat
        · simp [listLeChars, hab, hba] at h1
        · have heq : a = b := char_eq_of_toNat_eq (by omega)
          subst heq
          simp only [listLeChars, if_neg hab, if_neg hba] at h1 h2
          rw [ih bs' h1 h2]

theorem pyLe_total (a b : String) : pyLe a b = true ∨ pyLe b a = true :=
  listLeChars_total a.data b.data

theorem pyLe_antisymm {a b : String} (h1 : pyLe a b = true) (h2 : pyLe b a = true) :
    a = b := by
  cases a with
  | mk da =>
    cases b with
    | mk db =>
      rw [listLeChars_antisymm da db h1 h2]

theorem pySorted_pair (x y : String) : pySorted [x, y] = pySorted [y, x] := by
  show insertSorted x (insertSorted y []) = insertSorted y (insertSorted x [])
  show insertSorted x [y] = insertSorted y [x]
  by_cases hxy : pyLe x y = true
  · by_cases hyx : pyLe y x = true
    · rw [pyLe_antisymm hxy hyx]
    · simp [insertSorted, hxy, hyx]
  · have hyx : pyLe y x = true := (pyLe_total x y).resolve_left hxy
    simp [insertSorted, hxy, hyx]

theorem foldl_inv {α β : Type} {inv : β → Prop} {step : β → α → β}
    (hstep : ∀ b a, inv b → inv (step b a)) :
    ∀ (l : List α) (b : β), inv b → inv (l.foldl step b) := by
  intro l
  induction l with
  | nil => intro b h; exact h
  | cons a as ih => intro b h; exact ih _ (hstep b a h)

/-! ## Claim theorems -/

/-- C3: for every table and every column name that is not a column of the
table, `analyze_column` fails with `NotFoundError` (the `KeyError` of
`df[col]`), and the error is returned to the caller of that single call. -/
theorem missing_column_not_found (df : DataFrame) (col : String)
    (h : ∀ pr ∈ df.cols, pr.1 ≠ col) :
    analyzeColumn df col = Except.error PipelineError.NotFoundError := by
  have hg : df.getCol col = none := by
    unfold DataFrame.getCol
    rw [List.find?_eq_none.mpr]
    · rfl
    · intro x hx
      simpa using h x hx
  unfold analyzeColumn
  rw [hg]

/-- Witness for C3: a one-column frame probed for an absent column. -/
theorem missing_column_not_found_witness :
    analyzeColumn { cols := [("a", [some "1"])] } "b" =
      Except.error PipelineError.NotFoundError :=
  missing_column_not_found { cols := [("a", [some "1"])] } "b" (by decide)

/-- C4: every column in which at least one sampled value matches the
well-formed email pattern is classified `pii_level = HIGH` by
`analyze_column` — never MEDIUM, LOW or NONE — regardless of the column
name (in particular when the name contains a LOW keyword). -/
theorem email_value_forces_high_pii (df : DataFrame) (col : String)
    (vals : List (Option String)) (hv : df.getCol col = some vals)
    (hm : (dropna vals).any emailMatch = true) :
    ∃ p, analyzeColumn df col = Except.ok p ∧ p.pii_level = PIILevel.HIGH := by
  unfold analyzeColumn
  rw [hv]
  refine ⟨_, rfl, ?_⟩
  show detectPii (dropna vals) col = PIILevel.HIGH
  unfold detectPii
  rw [if_pos hm]

/-- Witness for C4: an email value inside a column whose name `city` is a
LOW-pattern keyword. -/
theorem email_value_forces_high_pii_witness :
    ∃ p, analyzeColumn { cols := [("city", [some "john.doe@example.com", some "york"])] }
        "city" = Except.ok p ∧ p.pii_level = PIILevel.HIGH :=
  email_value_forces_high_pii
    { cols := [("city", [some "john.doe@example.com", some "york"])] } "city"
    [some "john.doe@example.com", some "york"] rfl (by decide)

/-- C10: every column in which at least one sampled value matches the
phone pattern `^\+?1?\d{9,15}$` — a bare string of 9 to 15 digits,
optionally preceded by `+` or a leading `1` — is classified
`pii_level = HIGH` by `analyze_column`, whatever the column otherwise
holds. -/
theorem digit_string_forces_high_pii (df : DataFrame) (col : String)
    (vals : List (Option String)) (hv : df.getCol col = some vals)
    (hm : (dropna vals).any phoneMatch = true) :
    ∃ p, analyzeColumn df col = Except.ok p ∧ p.pii_level = PIILevel.HIGH := by
  unfold analyzeColumn
  rw [hv]
  refine ⟨_, rfl, ?_⟩
  show detectPii (dropna vals) col = PIILevel.HIGH
  unfold detectPii
  cases he : (dropna vals).any emailMatch
  · cases hs : (dropna vals).any ssnMatch
    · cases hc : (dropna vals).any cardMatch
      · simp [he, hs, hc, hm]
      · simp [he, hs, hc]
    · simp [he, hs]
  · simp [he]

/-- Witness for C10: a 9-digit numeric identifier column. -/
theorem digit_string_forces_high_pii_witness :
    ∃ p, analyzeColumn { cols := [("event_ts", [some "123456789"])] } "event_ts"
        = Except.ok p ∧ p.pii_level = PIILevel.HIGH :=
  digit_string_forces_high_pii { cols := [("event_ts", [some "123456789"])] }
    "event_ts" [some "123456789"] rfl (by decide)

/-- C9: a column whose values are all missing (empty sample after
dropping nulls), whose name does not end in `id` (case-insensitively)
and does not match `date|day|year`, is classified NUMERIC (the
all-values-numeric test is vacuously true on the empty sample) with
`unique_ratio = 0` and `is_primary_key = false` — not TEXT, and not an
error. -/
theorem all_null_column_numeric (df : DataFrame) (col : String)
    (vals : List (Option String)) (hv : df.getCol col = some vals)
    (hempty : dropna vals = [])
    (_hid : endsWithCI col "id" = false)
    (hdate : dateNameMatch col = false) :
    ∃ p, analyzeColumn df col = Except.ok p ∧ p.data_type = DataType.NUMERIC ∧
      p.unique_ratio = 0 ∧ p.is_primary_key = false := by
  unfold analyzeColumn
  rw [hv]
  refine ⟨_, rfl, ?_, ?_, ?_⟩
  · show (if 10 * nunique (dropna vals) > 9 * (dropna vals).length && endsWithCI col "id"
        then (DataType.IDENTIFIER, true)
        else if dateNameMatch col then (DataType.DATE, false)
        else if (dropna vals).all numericMatch then (DataType.NUMERIC, false)
        else if (dropna vals).all
            (fun v => ["true", "false", "0", "1"].contains (pyLower v))
          then (DataType.BOOLEAN, false)
        else (DataType.TEXT, false)).1 = DataType.NUMERIC
    rw [hempty]
    simp [nunique, hdate]
  · show (if (dropna vals).length = 0 then (0 : ℚ)
      else (nunique (dropna vals) : ℚ) / ((dropna vals).length : ℚ)) = 0
    rw [hempty]
    rfl
  · show (if 10 * nunique (dropna vals) > 9 * (dropna vals).length && endsWithCI col "id"
        then (DataType.IDENTIFIER, true)
        else if dateNameMatch col then (DataType.DATE, false)
        else if (dropna vals).all numericMatch then (DataType.NUMERIC, false)
        else if (dropna vals).all
            (fun v => ["true", "false", "0", "1"].contains (pyLower v))
          then (DataType.BOOLEAN, false)
        else (DataType.TEXT, false)).2 = false
    rw [hempty]
    simp [nunique, hdate]

/-- Witness for C9: an all-null column named `note`. -/
theorem all_null_column_numeric_witness :
    ∃ p, analyzeColumn { cols := [("note", [none, none])] } "note" = Except.ok p ∧
      p.data_type = DataType.NUMERIC ∧ p.unique_ratio = 0 ∧ p.is_primary_key = false :=
  all_null_column_numeric { cols := [("note", [none, none])] } "note" [none, none]
    rfl (by decide) (by decide) (by decide)

/-- C6: whenever the advisory call fails (any raised exception — timeout,
transport, malformed response), `analyze_column_with_ai` returns the
pattern-pass profile unchanged — in particular the same semantic type —
paired with the fallback insight, and no exception propagates: the
result is `Except.ok`. -/
theorem advisory_failure_preserves_profile (df : DataFrame) (col : String)
    (e : String) (p : ColumnProfile) (hp : analyzeColumn df col = Except.ok p) :
    analyzeColumnWithAi true (Except.error e) df col =
      Except.ok (p, fallbackInsight p e) := by
  unfold analyzeColumnWithAi
  rw [hp]
  show Except.ok (merge p (fallbackInsight p e), fallbackInsight p e) = _
  unfold merge
  simp [fallbackInsight]

/-- Witness for C6: an advisory timeout on a one-column frame. -/
theorem advisory_failure_preserves_profile_witness :
    analyzeColumnWithAi true (Except.error "timeout") { cols := [("x", [none])] } "x" =
      Except.ok
        ({ suggested_name := "x", data_type := DataType.NUMERIC,
           is_primary_key := false, is_business_key := false, references := [],
           pii_level := PIILevel.NONE, unique_ratio := 0, sample_values := [] },
         fallbackInsight
           { suggested_name := "x", data_type := DataType.NUMERIC,
             is_primary_key := false, is_business_key := false, references := [],
             pii_level := PIILevel.NONE, unique_ratio := 0, sample_values := [] }
           "timeout") :=
  advisory_failure_preserves_profile { cols := [("x", [none])] } "x" "timeout"
    { suggested_name := "x", data_type := DataType.NUMERIC,
      is_primary_key := false, is_business_key := false, references := [],
      pii_level := PIILevel.NONE, unique_ratio := 0, sample_values := [] } (by decide)

theorem satStep_mem (hubs : List Hub) (acc : List Satellite) (p : ColumnProfile)
    {s : Satellite} (hs : s ∈ satStep hubs acc p) :
    s ∈ acc ∨ ∃ h ∈ hubs, h.name = s.parent_table := by
  unfold satStep at hs
  split at hs
  · split at hs
    · dsimp only at hs
      split at hs
      · exact Or.inl hs
      · rcases List.mem_append.mp hs with h | h
        · exact Or.inl h
        · have heq := List.mem_singleton.mp h
          rename_i parent rest _
          exact Or.inr ⟨parent, List.mem_cons_self parent rest, by rw [heq]⟩
    · exact Or.inl hs
  · exact Or.inl hs

theorem foldl_satStep_mem (hubs : List Hub) :
    ∀ (ps : List ColumnProfile) (acc : List Satellite) (s : Satellite),
      s ∈ ps.foldl (satStep hubs) acc →
      s ∈ acc ∨ ∃ h ∈ hubs, h.name = s.parent_table := by
  intro ps
  induction ps with
  | nil => intro acc s hs; exact Or.inl hs
  | cons p ps' ih =>
    intro acc s hs
    rcases ih (satStep hubs acc p) s hs with h | h
    · exact satStep_mem hubs acc p h
    · exact Or.inr h

/-- C1: every Satellite of a model returned by `generate_model` has a
`parent_table` equal to the name of a Hub present in the same model (no
dangling Satellite parents). -/
theorem satellite_parent_is_hub (profiles : List ColumnProfile) (nm : String)
    (sat : Satellite) (hs : sat ∈ (generateModel profiles nm).satellites) :
    ∃ h ∈ (generateModel profiles nm).hubs, h.name = sat.parent_table := by
  rcases foldl_satStep_mem (profiles.foldl hubStep []) profiles [] sat hs with h | h
  · exact absurd h (List.not_mem_nil sat)
  · exact h

/-- Witness for C1: an identifier column and a descriptive column produce
a Hub `A` and a Satellite `A_B_SAT` attached to it. -/
theorem satellite_parent_is_hub_witness :
    ∃ h ∈ (generateModel
        [{ suggested_name := "a", data_type := DataType.IDENTIFIER,
           is_primary_key := true },
         { suggested_name := "b", data_type := DataType.TEXT }] "M").hubs,
      h.name = (⟨"A_B_SAT", "A", ["b"]⟩ : Satellite).parent_table :=
  satellite_parent_is_hub
    [{ suggested_name := "a", data_type := DataType.IDENTIFIER,
       is_primary_key := true },
     { suggested_name := "b", data_type := DataType.TEXT }] "M"
    ⟨"A_B_SAT", "A", ["b"]⟩ (by decide)

/-- C2 counterexample: a single TEXT profile `a` referencing `b` is no
hub candidate, so the model has no Hubs at all, yet Step 3 still creates
the Link `A_B`; its `hub_references` name no Hub present in the model. -/
theorem link_refs_dangling_counterexample :
    ∃ l ∈ (generateModel
        [{ suggested_name := "a", data_type := DataType.TEXT,
           references := ["b"] }] "M").links,
      ∃ r ∈ l.hub_references,
        ¬ ∃ h ∈ (generateModel
            [{ suggested_name := "a", data_type := DataType.TEXT,
               references := ["b"] }] "M").hubs, h.name = r := by
  decide

theorem linkStep_mem (acc : List Link) (p : ColumnProfile) {l : Link}
    (hl : l ∈ linkStep acc p) :
    l ∈ acc ∨ (p.references ≠ [] ∧ l.hub_references = linkedHubNames p ∧
      l.name = pyJoin "_" (linkedHubNames p)) := by
  unfold linkStep at hl
  split at hl
  next hcond =>
    dsimp only at hl
    split at hl
    · exact Or.inl hl
    · rcases List.mem_append.mp hl with h | h
      · exact Or.inl h
      · have heq := List.mem_singleton.mp h
        refine Or.inr ⟨?_, by rw [heq], by rw [heq]⟩
        intro hnil
        rw [hnil] at hcond
        simp at hcond
  next => exact Or.inl hl

theorem foldl_linkStep_mem :
    ∀ (ps : List ColumnProfile) (acc : List Link) (l : Link),
      l ∈ ps.foldl linkStep acc →
      l ∈ acc ∨ ∃ p ∈ ps, p.references ≠ [] ∧ l.hub_references = linkedHubNames p ∧
        l.name = pyJoin "_" (linkedHubNames p) := by
  intro ps
  induction ps with
  | nil => intro acc l hl; exact Or.inl hl
  | cons p ps' ih =>
    intro acc l hl
    rcases ih (linkStep acc p) l hl with h | h
    · rcases linkStep_mem acc p h with h' | h'
      · exact Or.inl h'
      · exact Or.inr ⟨p, List.mem_cons_self p ps', h'⟩
    · rcases h with ⟨q, hq, hrest⟩
      exact Or.inr ⟨q, List.mem_cons_of_mem p hq, hrest⟩

/-- C2 (amended): every Link of a generated model is seeded by some input
profile with nonempty `references`: its `hub_references` is the
ascending sort of that profile's upper-cased suggested name together
with its upper-cased references, and its name joins that list with
underscores.  The entries are not guaranteed to name Hubs present in
the model (see the counterexample). -/
theorem link_refs_from_profile (profiles : List ColumnProfile) (nm : String)
    (l : Link) (hl : l ∈ (generateModel profiles nm).links) :
    ∃ p ∈ profiles, p.references ≠ [] ∧ l.hub_references = linkedHubNames p ∧
      l.name = pyJoin "_" (linkedHubNames p) := by
  rcases foldl_linkStep_mem profiles [] l hl with h | h
  · exact absurd h (List.not_mem_nil l)
  · exact h

/-- Witness for C2 (amended): the Link `A_B` of the counterexample model
is derived from the profile `a` referencing `b`. -/
theorem link_refs_from_profile_witness :
    ∃ p ∈ ([{ suggested_name := "a", data_type := DataType.TEXT,
              references := ["b"] }] : List ColumnProfile),
      p.references ≠ [] ∧
      (⟨"A_B", ["A", "B"]⟩ : Link).hub_references = linkedHubNames p ∧
      (⟨"A_B", ["A", "B"]⟩ : Link).name = pyJoin "_" (linkedHubNames p) :=
  link_refs_from_profile
    [{ suggested_name := "a", data_type := DataType.TEXT, references := ["b"] }]
    "M" ⟨"A_B", ["A", "B"]⟩ (by decide)

/-- C5 counterexample: the profiles `a` (references `["b", "c"]`) and `b`
(references `["a"]`) satisfy the claim's hypothesis — each one's
references contain the other's name — yet `generate_model` produces two
Links (`A_B_C` and `A_B`), not exactly one. -/
theorem symmetric_link_counterexample :
    (generateModel
      [{ suggested_name := "a", data_type := DataType.TEXT,
         references := ["b", "c"] },
       { suggested_name := "b", data_type := DataType.TEXT,
         references := ["a"] }] "M").links.length = 2 ∧
    ¬ (generateModel
      [{ suggested_name := "a", data_type := DataType.TEXT,
         references := ["b", "c"] },
       { suggested_name := "b", data_type := DataType.TEXT,
         references := ["a"] }] "M").links.length = 1 := by
  decide

/-- C5 (amended): for profiles `a` and `b` whose references are exactly
the other's suggested name, `generate_model` on the two-profile input
produces exactly one Link, and its name is the same whichever profile
comes first. -/
theorem symmetric_pair_single_link (a b : ColumnProfile) (nm : String)
    (ha : a.references = [b.suggested_name])
    (hb : b.references = [a.suggested_name]) :
    ∃ s, (generateModel [a, b] nm).links.map Link.name = [s] ∧
         (generateModel [b, a] nm).links.map Link.name = [s] := by
  have key : linkedHubNames b = linkedHubNames a := by
    unfold linkedHubNames
    rw [ha, hb]
    exact pySorted_pair _ _
  have hA : linkStep [] a = [⟨pyJoin "_" (linkedHubNames a), linkedHubNames a⟩] := by
    unfold linkStep
    rw [ha]
    simp
  have hB : linkStep [⟨pyJoin "_" (linkedHubNames a), linkedHubNames a⟩] b =
      [⟨pyJoin "_" (linkedHubNames a), linkedHubNames a⟩] := by
    unfold linkStep
    rw [hb, key]
    simp
  have hA' : linkStep [] b = [⟨pyJoin "_" (linkedHubNames a), linkedHubNames a⟩] := by
    unfold linkStep
    rw [hb, key]
    simp
  have hB' : linkStep [⟨pyJoin "_" (linkedHubNames a), linkedHubNames a⟩] a =
      [⟨pyJoin "_" (linkedHubNames a), linkedHubNames a⟩] := by
    unfold linkStep
    rw [ha]
    simp
  refine ⟨pyJoin "_" (linkedHubNames a), ?_, ?_⟩
  · show (linkStep (linkStep [] a) b).map Link.name = _
    rw [hA, hB]
    rfl
  · show (linkStep (linkStep [] b) a).map Link.name = _
    rw [hA', hB']
    rfl

/-- Witness for C5 (amended): the symmetric pair `a` referencing `b` and
`b` referencing `a`. -/
theorem symmetric_pair_single_link_witness :
    ∃ s, (generateModel
        [{ suggested_name := "a", data_type := DataType.TEXT, references := ["b"] },
         { suggested_name := "b", data_type := DataType.TEXT, references := ["a"] }]
        "M").links.map Link.name = [s] ∧
      (generateModel
        [{ suggested_name := "b", data_type := DataType.TEXT, references := ["a"] },
         { suggested_name := "a", data_type := DataType.TEXT, references := ["b"] }]
        "M").links.map Link.name = [s] :=
  symmetric_pair_single_link
    { suggested_name := "a", data_type := DataType.TEXT, references := ["b"] }
    { suggested_name := "b", data_type := DataType.TEXT, references := ["a"] }
    "M" rfl rfl

/-- C8 counterexample: column `c` holds `["1", null]` and column `o`
holds `["2", "2"]`.  On the sampled (non-null) rows there is one
distinct pair, equal to `c`'s sampled distinct count, and the 80%
cardinality test holds, so the claim's condition is satisfied; but the
source deduplicates the pairs over *all* rows of the frame — the null
row makes two distinct pairs — so `o` is not added to the references. -/
theorem cardinality_sampled_rows_counterexample :
    specCardinalityCond ["1"] (dropna [some "2", some "2"]) [some "1", none]
        [some "2", some "2"] = true ∧
    "o" ∉ detectForeignKeys
        { cols := [("c", [some "1", none]), ("o", [some "2", some "2"])] }
        "c" ["1"] := by
  decide

/-- C8 (amended): when neither the name-suffix heuristic nor the
value-overlap heuristic accepts the other column, the cardinality
heuristic adds it to the references exactly when the other column has at
least one non-null value, this column's sampled distinct count is at
least 80% of the other column's distinct count, and the number of
distinct `(this, other)` pairs over *all rows of the frame* (rows with
nulls included) equals this column's sampled distinct count. -/
theorem cardinality_heuristic_characterization (df : DataFrame) (col : String)
    (sample : List String) (other : String) (otherVals : List (Option String))
    (hnodup : (df.cols.map Prod.fst).Nodup)
    (hmem : (other, otherVals) ∈ df.cols)
    (hne : other ≠ col)
    (h1 : fkNameHeuristic col other = false)
    (h2 : fkOverlapHeuristic sample (dropna otherVals) = false) :
    other ∈ detectForeignKeys df col sample ↔
      fkCardinalityHeuristic sample (dropna otherVals)
        ((df.getCol col).getD []) otherVals = true := by
  unfold detectForeignKeys
  constructor
  · intro hin
    rcases List.mem_map.mp hin with ⟨e, he, hfst⟩
    have hel := List.mem_filter.mp he
    have heq : e = (other, otherVals) :=
      List.inj_on_of_nodup_map hnodup hel.1 hmem hfst
    have hp := hel.2
    rw [heq] at hp
    simp only [decide_eq_true_eq, Bool.and_eq_true, Bool.or_eq_true] at hp
    rcases hp.2 with (h | h) | h
    · rw [h1] at h; cases h
    · rw [h2] at h; cases h
    · exact h
  · intro hcard
    apply List.mem_map.mpr
    refine ⟨(other, otherVals), List.mem_filter.mpr ⟨hmem, ?_⟩, rfl⟩
    simp only [decide_eq_true_eq, Bool.and_eq_true, Bool.or_eq_true]
    exact ⟨hne, Or.inr hcard⟩

/-- Witness for C8 (amended): column `c = ["1", "2"]` against
`o = ["5", "5"]`, where the cardinality heuristic fires and the other
two heuristics do not. -/
theorem cardinality_heuristic_characterization_witness :
    "o" ∈ detectForeignKeys
        { cols := [("c", [some "1", some "2"]), ("o", [some "5", some "5"])] }
        "c" ["1", "2"] ↔
      fkCardinalityHeuristic ["1", "2"] (dropna [some "5", some "5"])
        ((DataFrame.getCol
          { cols := [("c", [some "1", some "2"]), ("o", [some "5", some "5"])] }
          "c").getD []) [some "5", some "5"] = true :=
  cardinality_heuristic_characterization
    { cols := [("c", [some "1", some "2"]), ("o", [some "5", some "5"])] }
    "c" ["1", "2"] "o" [some "5", some "5"]
    (by decide) (by decide) (by decide) (by decide) (by decide)

/-- C7 counterexample: the hub-qualifying profile `a_b` creates the Hub
`A_B`, while the profile `a` referencing `b` creates the Link `A_B`;
two tables of different kinds in the same model share a name, so names
are not unique across the combined set. -/
theorem combined_name_collision_counterexample :
    ∃ h ∈ (generateModel
        [{ suggested_name := "a_b", data_type := DataType.TEXT,
           is_primary_key := true },
         { suggested_name := "a", data_type := DataType.TEXT,
           references := ["b"] }] "M").hubs,
      ∃ l ∈ (generateModel
        [{ suggested_name := "a_b", data_type := DataType.TEXT,
           is_primary_key := true },
         { suggested_name := "a", data_type := DataType.TEXT,
           references := ["b"] }] "M").links,
        h.name = l.name := by
  decide

theorem linkedHubNames_fixed (p : ColumnProfile) :
    ∀ x ∈ linkedHubNames p, pyUpper x = x := by
  intro x hx
  have hx' := mem_pySorted hx
  rcases List.mem_cons.mp hx' with h | h
  · rw [h]; exact pyUpper_idem _
  · rcases List.mem_map.mp h with ⟨r, _, hr⟩
    rw [← hr]; exact pyUpper_idem r

theorem hubStep_inv (acc : List Hub) (p : ColumnProfile)
    (h : (acc.map Hub.name).Nodup ∧ ∀ x ∈ acc, pyUpper x.name = x.name) :
    ((hubStep acc p).map Hub.name).Nodup ∧
      ∀ x ∈ hubStep acc p, pyUpper x.name = x.name := by
  unfold hubStep
  split
  · dsimp only
    split
    · exact h
    next hany =>
      have hany' : ∀ x ∈ acc, ¬ x.name = pyUpper p.suggested_name := by
        simpa using hany
      constructor
      · rw [List.map_append, List.nodup_append]
        refine ⟨h.1, List.nodup_singleton _, ?_⟩
        intro y hy hmem
        rcases List.mem_map.mp hy with ⟨x, hx, hxy⟩
        have := List.mem_singleton.mp hmem
        exact hany' x hx (by rw [hxy, this])
      · intro x hx
        rcases List.mem_append.mp hx with h' | h'
        · exact h.2 x h'
        · rw [List.mem_singleton.mp h']
          exact pyUpper_idem _
  · exact h

theorem linkStep_inv (acc : List Link) (p : ColumnProfile)
    (h : (acc.map Link.name).Nodup ∧ ∀ x ∈ acc, pyUpper x.name = x.name) :
    ((linkStep acc p).map Link.name).Nodup ∧
      ∀ x ∈ linkStep acc p, pyUpper x.name = x.name := by
  unfold linkStep
  split
  · dsimp only
    split
    · exact h
    next hany =>
      have hany' : ∀ x ∈ acc, ¬ x.name = pyJoin "_" (linkedHubNames p) := by
        simpa using hany
      constructor
      · rw [List.map_append, List.nodup_append]
        refine ⟨h.1, List.nodup_singleton _, ?_⟩
        intro y hy hmem
        rcases List.mem_map.mp hy with ⟨x, hx, hxy⟩
        have := List.mem_singleton.mp hmem
        exact hany' x hx (by rw [hxy, this])
      · intro x hx
        rcases List.mem_append.mp hx with h' | h'
        · exact h.2 x h'
        · rw [List.mem_singleton.mp h']
          exact pyJoin_fixed _ (linkedHubNames_fixed p)
  · exact h

theorem satStep_inv (hubs : List Hub) (hfix : ∀ x ∈ hubs, pyUpper x.name = x.name)
    (acc : List Satellite) (p : ColumnProfile)
    (h : (acc.map Satellite.name).Nodup ∧ ∀ x ∈ acc, pyUpper x.name = x.name) :
    ((satStep hubs acc p).map Satellite.name).Nodup ∧
      ∀ x ∈ satStep hubs acc p, pyUpper x.name = x.name := by
  cases hubs with
  | nil =>
    unfold satStep
    split
    · exact h
    · exact h
  | cons parent rest =>
    unfold satStep
    split
    · dsimp only
      split
      · exact h
      next hany =>
        have hparent : pyUpper parent.name = parent.name :=
          hfix parent (List.mem_cons_self parent rest)
        have hnamefix : pyUpper (parent.name ++ "_" ++ pyUpper p.suggested_name ++ "_SAT")
            = parent.name ++ "_" ++ pyUpper p.suggested_name ++ "_SAT" := by
          rw [pyUpper_append, pyUpper_append, pyUpper_append, hparent, pyUpper_idem]
          rfl
        have hany' : ∀ x ∈ acc,
            ¬ x.name = parent.name ++ "_" ++ pyUpper p.suggested_name ++ "_SAT" := by
          simpa using hany
        constructor
        · rw [List.map_append, List.nodup_append]
          refine ⟨h.1, List.nodup_singleton _, ?_⟩
          intro y hy hmem
          rcases List.mem_map.mp hy with ⟨x, hx, hxy⟩
          have := List.mem_singleton.mp hmem
          exact hany' x hx (by rw [hxy, this])
        · intro x hx
          rcases List.mem_append.mp hx with h' | h'
          · exact h.2 x h'
          · rw [List.mem_singleton.mp h']
            exact hnamefix
    · exact h

theorem nodup_fixed_pairwise {l : List String} (hnd : l.Nodup)
    (hfx : ∀ x ∈ l, pyUpper x = x) :
    l.Pairwise (fun x y => pyUpper x ≠ pyUpper y) := by
  refine List.Pairwise.imp_of_mem ?_ hnd
  intro a b ha hb hne
  rw [hfx a ha, hfx b hb]
  exact hne

/-- C7 (amended): table names are unique — even case-insensitively, all
generated names being upper-case — *within* each of the hubs, links and
satellites lists of a generated model.  They are not unique across the
combined set of the three kinds: a Hub and a Link can share a name
(see the counterexample). -/
theorem names_unique_within_kind (profiles : List ColumnProfile) (nm : String) :
    ((generateModel profiles nm).hubs.map Hub.name).Pairwise
        (fun x y => pyUpper x ≠ pyUpper y) ∧
    ((generateModel profiles nm).links.map Link.name).Pairwise
        (fun x y => pyUpper x ≠ pyUpper y) ∧
    ((generateModel profiles nm).satellites.map Satellite.name).Pairwise
        (fun x y => pyUpper x ≠ pyUpper y) := by
  have hhubs : ((profiles.foldl hubStep []).map Hub.name).Nodup ∧
      ∀ x ∈ profiles.foldl hubStep [], pyUpper x.name = x.name :=
    foldl_inv (fun acc p => hubStep_inv acc p) profiles []
      ⟨List.nodup_nil, fun x hx => absurd hx (List.not_mem_nil x)⟩
  have hlinks : ((profiles.foldl linkStep []).map Link.name).Nodup ∧
      ∀ x ∈ profiles.foldl linkStep [], pyUpper x.name = x.name :=
    foldl_inv (fun acc p => linkStep_inv acc p) profiles []
      ⟨List.nodup_nil, fun x hx => absurd hx (List.not_mem_nil x)⟩
  have hsats : ((profiles.foldl (satStep (profiles.foldl hubStep [])) []).map
        Satellite.name).Nodup ∧
      ∀ x ∈ profiles.foldl (satStep (profiles.foldl hubStep [])) [],
        pyUpper x.name = x.name :=
    foldl_inv (fun acc p => satStep_inv (profiles.foldl hubStep []) hhubs.2 acc p)
      profiles [] ⟨List.nodup_nil, fun x hx => absurd hx (List.not_mem_nil x)⟩
  refine ⟨?_, ?_, ?_⟩
  · refine nodup_fixed_pairwise hhubs.1 ?_
    intro x hx
    rcases List.mem_map.mp hx with ⟨e, he, hex⟩
    rw [← hex]
    exact hhubs.2 e he
  · refine nodup_fixed_pairwise hlinks.1 ?_
    intro x hx
    rcases List.mem_map.mp hx with ⟨e, he, hex⟩
    rw [← hex]
    exact hlinks.2 e he
  · refine nodup_fixed_pairwise hsats.1 ?_
    intro x hx
    rcases List.mem_map.mp hx with ⟨e, he, hex⟩
    rw [← hex]
    exact hsats.2 e he

end AIPipeline
